import Mathlib

/-!
Verification of the thumbor-rs URL-building client.

This file gives a shallow embedding of the library's core pipeline —
geometry value types, the filter grammar, the path canonicalizer, the
HMAC-SHA1 signer with URL-safe base64 rendering, and the URL assembler —
and proves or refutes the specification's claims about it.

Machine integers are modelled as `Nat`/`Int`; where 32-bit overflow is
relevant (the `i32` geometry arithmetic) values are reduced explicitly
with `% 2^32` wrapping, matching Rust release-mode semantics. Rust's
`i32` division (`/`, truncating toward zero) is `Int.tdiv`.
-/

namespace Thumbor

/-! ## Bytes, words and SHA-1 (the `sha1`/`hmac` crates used by the signer) -/

/-- Truncate to a 32-bit word. -/
def w32 (n : Nat) : Nat := n % 4294967296

/-- Rotate a 32-bit word left by `s` bits. -/
def rotl (s n : Nat) : Nat := w32 ((n <<< s) ||| (n >>> (32 - s)))

/-- Big-endian bytes of a 32-bit word. -/
def be32 (n : Nat) : List Nat := [n >>> 24 % 256, n >>> 16 % 256, n >>> 8 % 256, n % 256]

/-- Big-endian bytes of the 64-bit bit-length field of SHA-1 padding. -/
def be64 (n : Nat) : List Nat :=
  [n >>> 56 % 256, n >>> 48 % 256, n >>> 40 % 256, n >>> 32 % 256,
   n >>> 24 % 256, n >>> 16 % 256, n >>> 8 % 256, n % 256]

/-- SHA-1 padding: append `0x80`, zero bytes up to 56 mod 64, then the
64-bit big-endian bit length. -/
def sha1pad (msg : List Nat) : List Nat :=
  msg ++ [128] ++ List.replicate ((119 - msg.length % 64) % 64) 0 ++ be64 (8 * msg.length)

/-- Split into 64-byte blocks; the fuel argument (instantiated with the list
length, an upper bound on the block count) keeps the recursion structural so
that the kernel can evaluate it. -/
def toBlocksAux : Nat → List Nat → List (List Nat)
  | 0, _ => []
  | _, [] => []
  | fuel + 1, l => l.take 64 :: toBlocksAux fuel (l.drop 64)

/-- Split a padded message into 64-byte blocks. -/
def toBlocks (l : List Nat) : List (List Nat) := toBlocksAux l.length l

/-- Parse a 64-byte block into 16 big-endian 32-bit words. -/
def toWords : List Nat → List Nat
  | b0 :: b1 :: b2 :: b3 :: rest => (((b0 * 256 + b1) * 256 + b2) * 256 + b3) :: toWords rest
  | _ => []

/-- SHA-1 message-schedule extension; the schedule built so far is kept in
reverse, so `w[i-3]`, `w[i-8]`, `w[i-14]`, `w[i-16]` are at reversed
positions 2, 7, 13 and 15. -/
def extendW (rev : List Nat) : Nat → List Nat
  | 0 => rev.reverse
  | n + 1 =>
    let g := fun i => (rev.get? i).getD 0
    extendW (rotl 1 (g 2 ^^^ g 7 ^^^ g 13 ^^^ g 15) :: rev) n

/-- The five-word SHA-1 working state. -/
structure Sha1State where
  a : Nat
  b : Nat
  c : Nat
  d : Nat
  e : Nat

/-- One SHA-1 round; the pair carries the round index and schedule word. -/
def sha1round (s : Sha1State) (iw : Nat × Nat) : Sha1State :=
  let i := iw.1
  let w := iw.2
  let f :=
    if i < 20 then (s.b &&& s.c) ||| ((s.b ^^^ 4294967295) &&& s.d)
    else if i < 40 then s.b ^^^ s.c ^^^ s.d
    else if i < 60 then (s.b &&& s.c) ||| (s.b &&& s.d) ||| (s.c &&& s.d)
    else s.b ^^^ s.c ^^^ s.d
  let k :=
    if i < 20 then 1518500249
    else if i < 40 then 1859775393
    else if i < 60 then 2400959708
    else 3395469782
  let temp := w32 (rotl 5 s.a + f + s.e + k + w)
  ⟨temp, s.a, rotl 30 s.b, s.c, s.d⟩

/-- Process one 64-byte block of the SHA-1 compression function. -/
def sha1block (h : Sha1State) (block : List Nat) : Sha1State :=
  let ws := extendW (toWords block).reverse 64
  let s := ((List.range 80).zip ws).foldl sha1round h
  ⟨w32 (h.a + s.a), w32 (h.b + s.b), w32 (h.c + s.c), w32 (h.d + s.d), w32 (h.e + s.e)⟩

/-- SHA-1 digest (20 bytes) of a byte list. -/
def sha1 (msg : List Nat) : List Nat :=
  let h := (toBlocks (sha1pad msg)).foldl sha1block
    ⟨1732584193, 4023233417, 2562383102, 271733878, 3285377520⟩
  be32 h.a ++ be32 h.b ++ be32 h.c ++ be32 h.d ++ be32 h.e

/-- HMAC-SHA1 (RFC 2104) over byte lists, with the 64-byte SHA-1 block size;
this is the `Hmac<Sha1>` primitive the server's keyed security mode holds. -/
def hmacSha1 (key msg : List Nat) : List Nat :=
  let k0 := if 64 < key.length then sha1 key else key
  let kp := k0 ++ List.replicate (64 - k0.length) 0
  sha1 ((kp.map (fun b => b ^^^ 92)) ++ sha1 ((kp.map (fun b => b ^^^ 54)) ++ msg))

/-- The URL-safe base64 alphabet (RFC 4648 §5), as in base64ct. -/
def b64char (n : Nat) : Char :=
  "ABCDEFGHIJKLMNOPQRSTUVWXYZabcdefghijklmnopqrstuvwxyz0123456789-_".toList.getD n 'A'

/-- Padded URL-safe base64, as produced by base64ct's `Base64Url::encode_string`:
trailing groups of one or two bytes are closed with `'='` padding. -/
def b64urlEncode : List Nat → List Char
  | [] => []
  | [b1] => [b64char (b1 >>> 2), b64char ((b1 % 4) * 16), '=', '=']
  | [b1, b2] => [b64char (b1 >>> 2), b64char ((b1 % 4) * 16 + (b2 >>> 4)), b64char ((b2 % 16) * 4), '=']
  | b1 :: b2 :: b3 :: rest =>
    b64char (b1 >>> 2) :: b64char ((b1 % 4) * 16 + (b2 >>> 4)) ::
    b64char ((b2 % 16) * 4 + (b3 >>> 6)) :: b64char (b3 % 64) :: b64urlEncode rest

/-- UTF-8 bytes of a character. -/
def utf8Char (c : Char) : List Nat :=
  let n := c.toNat
  if n < 128 then [n]
  else if n < 2048 then [192 + n / 64, 128 + n % 64]
  else if n < 65536 then [224 + n / 4096, 128 + n / 64 % 64, 128 + n % 64]
  else [240 + n / 262144, 128 + n / 4096 % 64, 128 + n / 64 % 64, 128 + n % 64]

/-- UTF-8 bytes of a string (`str::as_bytes`). -/
def strBytes (s : String) : List Nat := s.data.flatMap utf8Char

/-! ## Geometry (`src/geometry.rs`)

`i32` values are `Int`s; arithmetic that can overflow is wrapped with
`wrap32`, matching Rust release-mode wrapping semantics. -/

/-- Wrap an integer into the `i32` range `[-2^31, 2^31)`. -/
def wrap32 (n : Int) : Int := (n + 2147483648) % 4294967296 - 2147483648

/-- `Point`: an integer pair (`src/geometry.rs`). -/
structure Point where
  x : Int
  y : Int
deriving DecidableEq

/-- `Point::new`. -/
def Point.new (x y : Int) : Point := ⟨x, y⟩

/-- `impl Add for Point` (componentwise `i32` addition, wrapping). -/
def Point.add (p q : Point) : Point := ⟨wrap32 (p.x + q.x), wrap32 (p.y + q.y)⟩

/-- `impl Sub for Point` (componentwise `i32` subtraction, wrapping). -/
def Point.sub (p q : Point) : Point := ⟨wrap32 (p.x - q.x), wrap32 (p.y - q.y)⟩

/-- `impl Div<i32> for Point`: componentwise truncating division. -/
def Point.divScalar (p : Point) (d : Int) : Point := ⟨Int.tdiv p.x d, Int.tdiv p.y d⟩

/-- `impl Display for Point`: `"{x}x{y}"`. -/
def pointStr (p : Point) : String := toString p.x ++ "x" ++ toString p.y

/-- `Rect`: four stored `i32` coordinates (`src/geometry.rs`). -/
structure Rect where
  left : Int
  top : Int
  right : Int
  bottom : Int
deriving DecidableEq

/-- `Rect::new`: stores the four coordinates exactly as given. -/
def Rect.new (left top right bottom : Int) : Rect := ⟨left, top, right, bottom⟩

/-- `impl From<(T, T)> for Rect`: build from a left-top and right-bottom point. -/
def rectFromPoints (leftTop rightBottom : Point) : Rect :=
  Rect.new leftTop.x leftTop.y rightBottom.x rightBottom.y

/-- `Rect::from_center`: half-extents truncate (`i32` division by 2), corner
arithmetic wraps. -/
def Rect.fromCenter (c : Point) (width height : Int) : Rect :=
  let rx := Int.tdiv width 2
  let ry := Int.tdiv height 2
  rectFromPoints ⟨wrap32 (c.x - rx), wrap32 (c.y - ry)⟩ ⟨wrap32 (c.x + rx), wrap32 (c.y + ry)⟩

/-- `Rect::left_top`. -/
def Rect.leftTop (r : Rect) : Point := Point.new r.left r.top

/-- `Rect::right_bottom`. -/
def Rect.rightBottom (r : Rect) : Point := Point.new r.right r.bottom

/-- `Rect::center`: `(left_top + right_bottom) / 2`. -/
def Rect.center (r : Rect) : Point := (r.leftTop.add r.rightBottom).divScalar 2

/-- `Rect::width`: the code computes `bottom - top`. -/
def Rect.width (r : Rect) : Int := wrap32 (r.bottom - r.top)

/-- `Rect::height`: the code computes `right - left`. -/
def Rect.height (r : Rect) : Int := wrap32 (r.right - r.left)

/-- `impl Display for Rect`: `"{left_top}:{right_bottom}"`. -/
def rectStr (r : Rect) : String := pointStr r.leftTop ++ ":" ++ pointStr r.rightBottom

/-- Modelled from the spec: `Coords` (the resize target, `resize: Option<Coords>`)
is referenced by the option set but its definition is not under `src/`; the
spec fixes the point/size encoding as `"{x}x{y}"` (§4.2), identical to
`Point`'s `Display`, so we model `Coords` as `Point`. The regression fixture
(`300x200`) agrees. -/
abbrev Coords := Point

/-! ## Option enumerations (`src/endpoint.rs`) with their fixed tokens -/

/-- `HAlignment` with its strum `lowercase` tokens. -/
inductive HAlignment where
  | left
  | center
  | right
deriving DecidableEq

/-- Token of an `HAlignment`. -/
def HAlignment.toStr : HAlignment → String
  | .left => "left"
  | .center => "center"
  | .right => "right"

/-- `VAlignment` with its strum `lowercase` tokens. -/
inductive VAlignment where
  | top
  | middle
  | bottom
deriving DecidableEq

/-- Token of a `VAlignment`. -/
def VAlignment.toStr : VAlignment → String
  | .top => "top"
  | .middle => "middle"
  | .bottom => "bottom"

/-- `Trim` orientation. -/
inductive Trim where
  | topLeft
  | bottomRight
deriving DecidableEq

/-- Token of a `Trim` (strum `to_string` attributes). -/
def Trim.toStr : Trim → String
  | .topLeft => "trim:top-left"
  | .bottomRight => "trim:bottom-right"

/-- `FitIn` mode. -/
inductive FitIn where
  | default
  | adaptive
  | full
deriving DecidableEq

/-- Token of a `FitIn` (strum `to_string` attributes). -/
def FitIn.toStr : FitIn → String
  | .default => "fit-in"
  | .adaptive => "adaptive-fit-in"
  | .full => "full-fit-in"

/-- `ResponseMode`. -/
inductive ResponseMode where
  | metadata
  | debug
deriving DecidableEq

/-- Token of a `ResponseMode` (strum `serialize` attributes). -/
def ResponseMode.toStr : ResponseMode → String
  | .metadata => "meta"
  | .debug => "debug"

/-! ## Filter grammar (`src/endpoint/filter.rs`) -/

/-- `Color`: an RGB triple or a named color. -/
inductive Color where
  | rgb (r g b : Nat)
  | name (s : String)
deriving DecidableEq

/-- One lowercase hex digit. -/
def hexDigit (n : Nat) : Char := "0123456789abcdef".toList.getD n '0'

/-- Two lowercase zero-padded hex digits of a byte (`{:02x}`). -/
def hex2 (n : Nat) : String := String.mk [hexDigit (n / 16 % 16), hexDigit (n % 16)]

/-- `impl Display for Color`: `#rrggbb` or the literal name. -/
def colorStr : Color → String
  | .rgb r g b => "#" ++ hex2 r ++ hex2 g ++ hex2 b
  | .name s => s

/-- Output `Format` with its strum `lowercase` tokens. -/
inductive ImageFormat where
  | webp
  | jpeg
  | gif
  | png
  | avif
  | heic
deriving DecidableEq

/-- Token of an output format. -/
def ImageFormat.toStr : ImageFormat → String
  | .webp => "webp"
  | .jpeg => "jpeg"
  | .gif => "gif"
  | .png => "png"
  | .avif => "avif"
  | .heic => "heic"

/-- `Radius` for round corners: a circle radius or an ellipsis pair. -/
inductive Radius where
  | ellipsis (width height : Nat)
  | circle (radius : Nat)
deriving DecidableEq

/-- `impl Display for Radius`: `{radius}` or `{width}|{height}`. -/
def radiusStr : Radius → String
  | .circle radius => toString radius
  | .ellipsis width height => toString width ++ "|" ++ toString height

/-- The closed filter variant type of `src/endpoint/filter.rs`. Payload types:
`u8`/`u16`/`u32` are `Nat`, `i8`/`i32` are `Int`. The two `f32` payloads
(`Proportion`, `Sharpen`'s amounts) are kept as the decimal string Rust's
`f32` `Display` would render, since no claim depends on float formatting. -/
inductive Filter where
  | autoJPG
  | backgroundColor (color : Color)
  | blur (radius : Nat) (sigma : Option Nat)
  | brightness (amount : Int)
  | contrast (amount : Int)
  | convolution (matrixItems : List Int) (numberOfColumns : Nat) (shouldNormalize : Bool)
  | cover
  | equalize
  | extractFocalPoints
  | filling (color : Color) (fillTransparent : Bool)
  | focal (region : Rect)
  | format (fmt : ImageFormat)
  | grayscale
  | maxBytes (n : Nat)
  | noUpscale
  | noise (amount : Nat)
  | proportion (amount : String)
  | quality (amount : Nat)
  | redEye
  | rgb (rAmount gAmount bAmount : Int)
  | rotate (angle : Nat)
  | roundCorners (radius : Radius) (color : Color) (transparent : Bool)
  | saturation (amount : Int)
  | sharpen (sharpenAmount sharpenRadius : String) (luminanceOnly : Bool)
  | stretch
  | stripEXIF
  | stripICC
  | upscale
  | watermark (imageUrl : String) (x y : Int) (alpha : Nat)
      (wRatio hRatio : Option Nat)
  | custom (name : String) (args : List String)
deriving DecidableEq

/-- The strum `AsRefStr` lowercase name of a filter (`Custom` handled in
`Filter.toStr`). -/
def Filter.nameStr : Filter → String
  | .autoJPG => "autojpg"
  | .backgroundColor _ => "backgroundcolor"
  | .blur _ _ => "blur"
  | .brightness _ => "brightness"
  | .contrast _ => "contrast"
  | .convolution _ _ _ => "convolution"
  | .cover => "cover"
  | .equalize => "equalize"
  | .extractFocalPoints => "extractfocalpoints"
  | .filling _ _ => "filling"
  | .focal _ => "focal"
  | .format _ => "format"
  | .grayscale => "grayscale"
  | .maxBytes _ => "maxbytes"
  | .noUpscale => "noupscale"
  | .noise _ => "noise"
  | .proportion _ => "proportion"
  | .quality _ => "quality"
  | .redEye => "redeye"
  | .rgb _ _ _ => "rgb"
  | .rotate _ => "rotate"
  | .roundCorners _ _ _ => "roundcorners"
  | .saturation _ => "saturation"
  | .sharpen _ _ _ => "sharpen"
  | .stretch => "stretch"
  | .stripEXIF => "stripexif"
  | .stripICC => "stripicc"
  | .upscale => "upscale"
  | .watermark _ _ _ _ _ _ => "watermark"
  | .custom name _ => name

/-- `Filter::args`: the ordered textual argument list of a filter. -/
def Filter.args : Filter → List String
  | .autoJPG | .cover | .equalize | .extractFocalPoints | .grayscale
  | .noUpscale | .redEye | .stretch | .stripEXIF | .stripICC | .upscale => []
  | .custom _ args => args
  | .backgroundColor color => [colorStr color]
  | .brightness amount => [toString amount]
  | .contrast amount => [toString amount]
  | .focal region => [rectStr region]
  | .format fmt => [fmt.toStr]
  | .maxBytes n => [toString n]
  | .noise amount => [toString amount]
  | .proportion amount => [amount]
  | .quality amount => [toString amount]
  | .rotate angle => [toString angle]
  | .saturation amount => [toString amount]
  | .blur radius sigma =>
    [toString radius] ++ (match sigma with | some s => [toString s] | none => [])
  | .convolution matrixItems numberOfColumns shouldNormalize =>
    [String.intercalate ";" (matrixItems.map toString), toString numberOfColumns,
     toString shouldNormalize]
  | .filling color fillTransparent =>
    [colorStr color] ++ (if fillTransparent then ["1"] else [])
  | .rgb rAmount gAmount bAmount => [toString rAmount, toString gAmount, toString bAmount]
  | .roundCorners radius color transparent =>
    [radiusStr radius, colorStr color] ++ (if transparent then ["1"] else [])
  | .sharpen sharpenAmount sharpenRadius luminanceOnly =>
    [sharpenAmount, sharpenRadius, toString luminanceOnly]
  | .watermark imageUrl x y alpha wRatio hRatio =>
    [imageUrl, toString x, toString y, toString alpha] ++
    (match wRatio with | some w => [toString w] | none => []) ++
    (match hRatio with | some h => [toString h] | none => [])

/-- `impl Display for Filter`: `name(arg1,arg2,...)`. -/
def Filter.toStr (f : Filter) : String :=
  f.nameStr ++ "(" ++ String.intercalate "," f.args ++ ")"

/-! ## Server, security mode, option set and the pipeline
(`src/server.rs`, `src/endpoint.rs`, `src/endpoint/builder.rs`,
`src/settings/builder.rs`) -/

/-- The security mode (`Security` in `src/server.rs`): `noSign` is the
source's keyless `Security::Unsafe` mode, `hmacKey` the keyed HMAC mode
(the stored initialized `Hmac<Sha1>` is determined by its key string). -/
inductive Security where
  | noSign
  | hmacKey (key : String)
deriving DecidableEq

/-- `Server`: an origin string plus a security mode. -/
structure Server where
  origin : String
  security : Security
deriving DecidableEq

/-- The option set (`Endpoint` in `src/endpoint.rs`; the `Settings` /
`Thumbor` structs of the sibling revisions have the same fields). -/
structure Endpoint where
  server : Server
  response : Option ResponseMode
  trim : Option Trim
  crop : Option Rect
  fitIn : Option FitIn
  resize : Option Coords
  hAlign : Option HAlignment
  vAlign : Option VAlignment
  filters : List Filter
  smart : Bool
deriving DecidableEq

/-- The segments pushed by `Endpoint::build_path`, in source order: each
optional field contributes its token only when set; a non-empty filter list
contributes one `filters:`-prefixed segment. -/
def Endpoint.pathSegments (e : Endpoint) : List String :=
  (match e.response with | some resp => [resp.toStr] | none => []) ++
  (match e.trim with | some orientation => [orientation.toStr] | none => []) ++
  (match e.crop with | some crop => [rectStr crop] | none => []) ++
  (match e.fitIn with | some fitIn => [fitIn.toStr] | none => []) ++
  (match e.resize with | some resize => [pointStr resize] | none => []) ++
  (match e.hAlign with | some hAlign => [hAlign.toStr] | none => []) ++
  (match e.vAlign with | some vAlign => [vAlign.toStr] | none => []) ++
  (if e.smart then ["smart"] else []) ++
  (if e.filters.isEmpty then []
   else ["filters:" ++ String.intercalate ":" (e.filters.map Filter.toStr)])

/-- `Endpoint::build_path`: the segments plus the image identifier, joined
with `/`. -/
def Endpoint.buildPath (e : Endpoint) (imageUri : String) : String :=
  String.intercalate "/" (e.pathSegments ++ [imageUri])

/-- The keyed signature token: HMAC-SHA1 of the path's UTF-8 bytes, rendered
as padded URL-safe base64 (`Base64Url::encode_string`). -/
def signPath (key path : String) : String :=
  String.mk (b64urlEncode (hmacSha1 (strBytes key) (strBytes path)))

/-- The signature segment computed in `Endpoint::to_path`'s `match` on the
server security. -/
def securityToken (sec : Security) (path : String) : String :=
  match sec with
  | .noSign => "unsafe"
  | .hmacKey key => signPath key path

/-- `Endpoint::to_path`: `"/{security}/{path}"`. -/
def Endpoint.toPath (e : Endpoint) (imageUri : String) : String :=
  let path := e.buildPath imageUri
  "/" ++ securityToken e.server.security path ++ "/" ++ path

/-- `Endpoint::to_url`: origin followed by the signed path. -/
def Endpoint.toUrl (e : Endpoint) (imageUri : String) : String :=
  e.server.origin ++ e.toPath imageUri

/-- The error enumeration of `src/error.rs`. -/
inductive UrlError where
  | urlParseError
  | urlCannotBeABase
deriving DecidableEq

/-- The option-set struct of `src/settings.rs` has the same fields as
`Endpoint`; its `build`/`build_uri` live in `src/settings/builder.rs`. -/
abbrev Settings := Endpoint

/-- `Settings::build`: assembles `"{origin}/{security}/{path}"` and always
returns it wrapped in `Ok`. -/
def Settings.build (s : Settings) (imageUri : String) : Except UrlError String :=
  let path := Endpoint.buildPath s imageUri
  let security := securityToken s.server.security path
  Except.ok (s.server.origin ++ "/" ++ security ++ "/" ++ path)

/-- `Settings::build_uri`:
`Ok(self.build(image_uri).unwrap().parse::<Uri>().unwrap())`. The URI parser
of the `http` crate is abstract here (`parse`); `none` in the result models a
panic of one of the two `.unwrap()` calls, which is not an error value. -/
def Settings.buildUri {Uri : Type} (s : Settings) (parse : String → Option Uri)
    (imageUri : String) : Option (Except UrlError Uri) :=
  match s.build imageUri with
  | Except.ok str =>
    match parse str with
    | some uri => some (Except.ok uri)
    | none => none
  | Except.error _ => none

/-! ## The fixed field order as data, and erasure of optional fields -/

/-- The nine optional-field encoders of the canonicalizer, in the fixed
source order of `Endpoint::build_path`. -/
def optionalFieldEncoders : List (Endpoint → Option String) :=
  [fun e => e.response.map ResponseMode.toStr,
   fun e => e.trim.map Trim.toStr,
   fun e => e.crop.map rectStr,
   fun e => e.fitIn.map FitIn.toStr,
   fun e => e.resize.map pointStr,
   fun e => e.hAlign.map HAlignment.toStr,
   fun e => e.vAlign.map VAlignment.toStr,
   fun e => if e.smart then some "smart" else none,
   fun e => if e.filters.isEmpty then none
            else some ("filters:" ++ String.intercalate ":" (e.filters.map Filter.toStr))]

/-- `e'` is `e` with some subset of its optional fields unset (every field of
`e'` is either unset or has `e`'s value). -/
def Erases (e' e : Endpoint) : Prop :=
  (e'.response = none ∨ e'.response = e.response) ∧
  (e'.trim = none ∨ e'.trim = e.trim) ∧
  (e'.crop = none ∨ e'.crop = e.crop) ∧
  (e'.fitIn = none ∨ e'.fitIn = e.fitIn) ∧
  (e'.resize = none ∨ e'.resize = e.resize) ∧
  (e'.hAlign = none ∨ e'.hAlign = e.hAlign) ∧
  (e'.vAlign = none ∨ e'.vAlign = e.vAlign) ∧
  (e'.smart = false ∨ e'.smart = e.smart) ∧
  (e'.filters = [] ∨ e'.filters = e.filters)

instance : ∀ e' e, Decidable (Erases e' e) := by
  intro e' e
  unfold Erases
  infer_instance

/-! ## Fixtures used by concrete theorems and witnesses -/

/-- The regression-fixture server: origin `http://my.server.com`, key
`my-security-key`. -/
def fixtureServer : Server := ⟨"http://my.server.com", Security.hmacKey "my-security-key"⟩

/-- An endpoint on the fixture server whose only set option is resize 300x200. -/
def fixtureEndpoint : Endpoint :=
  ⟨fixtureServer, none, none, none, none, some ⟨300, 200⟩, none, none, [], false⟩

/-- The fixture image identifier. -/
def fixtureImage : String := "my.server.com/some/path/to/image.jpg"

/-! ## Theorems -/

set_option maxRecDepth 100000 in
/-- C1: with a server configured with origin `http://my.server.com` and key
`my-security-key`, an option set whose only set option is resize 300x200,
and image identifier `my.server.com/some/path/to/image.jpg`, the signed path
produced by the pipeline equals exactly
`/8ammJH8D-7tXy6kU3lTvoXlhu4o=/300x200/my.server.com/some/path/to/image.jpg`. -/
theorem signed_path_regression_fixture :
    fixtureEndpoint.toPath fixtureImage =
      "/8ammJH8D-7tXy6kU3lTvoXlhu4o=/300x200/my.server.com/some/path/to/image.jpg" := by
  decide

/-- A SHA-1 digest always has 20 bytes. -/
theorem sha1_length (msg : List Nat) : (sha1 msg).length = 20 := by
  simp [sha1, be32]

/-- An HMAC-SHA1 digest always has 20 bytes. -/
theorem hmacSha1_length (key msg : List Nat) : (hmacSha1 key msg).length = 20 := by
  simp [hmacSha1, sha1_length]

/-- Padded URL-safe base64 of a byte list whose length is 2 mod 3 ends in the
padding character. -/
theorem b64urlEncode_getLast (bs : List Nat) (h : bs.length % 3 = 2) :
    (b64urlEncode bs).getLast? = some '=' := by
  induction bs using b64urlEncode.induct with
  | case1 => simp at h
  | case2 b1 => simp at h
  | case3 b1 b2 => rfl
  | case4 b1 b2 b3 rest ih =>
    have hr : rest.length % 3 = 2 := by
      simp [List.length_cons] at h
      omega
    have hlast := ih hr
    have hne : b64urlEncode rest ≠ [] := by
      intro hnil
      rw [hnil] at hlast
      simp at hlast
    have hshape : b64urlEncode (b1 :: b2 :: b3 :: rest) =
        [b64char (b1 >>> 2), b64char ((b1 % 4) * 16 + (b2 >>> 4)),
         b64char ((b2 % 16) * 4 + (b3 >>> 6)), b64char (b3 % 64)] ++ b64urlEncode rest := rfl
    rw [hshape, List.getLast?_append_of_ne_nil _ hne, hlast]

/-- C2 (amended): in keyed mode the signature segment is the HMAC-SHA1 digest
of the canonical path's exact UTF-8 bytes encoded as PADDED URL-safe base64;
the digest has 20 bytes, so the segment always ends with the `'='` padding
character (the original claim said unpadded / never contains `'='`). -/
theorem keyed_signature_is_padded_base64 (key : String) (e : Endpoint) (img : String)
    (h : e.server.security = Security.hmacKey key) :
    e.toPath img =
      "/" ++ String.mk (b64urlEncode (hmacSha1 (strBytes key) (strBytes (e.buildPath img)))) ++
      "/" ++ e.buildPath img ∧
    (hmacSha1 (strBytes key) (strBytes (e.buildPath img))).length = 20 ∧
    (signPath key (e.buildPath img)).data.getLast? = some '=' := by
  refine ⟨?_, hmacSha1_length _ _, ?_⟩
  · simp [Endpoint.toPath, securityToken, h, signPath]
  · show (b64urlEncode (hmacSha1 (strBytes key) (strBytes (e.buildPath img)))).getLast? = some '='
    exact b64urlEncode_getLast _ (by rw [hmacSha1_length])

/-- Witness for C2's amended theorem at the regression fixture. -/
theorem keyed_signature_is_padded_base64_witness :
    fixtureEndpoint.toPath fixtureImage =
      "/" ++ String.mk (b64urlEncode (hmacSha1 (strBytes "my-security-key")
        (strBytes (fixtureEndpoint.buildPath fixtureImage)))) ++
      "/" ++ fixtureEndpoint.buildPath fixtureImage ∧
    (hmacSha1 (strBytes "my-security-key")
      (strBytes (fixtureEndpoint.buildPath fixtureImage))).length = 20 ∧
    (signPath "my-security-key" (fixtureEndpoint.buildPath fixtureImage)).data.getLast? =
      some '=' :=
  keyed_signature_is_padded_base64 "my-security-key" fixtureEndpoint fixtureImage rfl

set_option maxRecDepth 100000 in
/-- C2 counterexample: the claim as stated says the signature segment never
contains a `'='` padding character, but the fixture key and canonical path
produce a signature that does contain one. -/
theorem signature_contains_padding_char :
    '=' ∈ (signPath "my-security-key" "300x200/my.server.com/some/path/to/image.jpg").data := by
  decide

set_option maxHeartbeats 3200000 in
/-- The segments pushed by `build_path` are exactly the nine optional-field
encoders, applied in the fixed source order, keeping only the set ones. -/
theorem pathSegments_eq_filterMap (e : Endpoint) :
    e.pathSegments = optionalFieldEncoders.filterMap (fun f => f e) := by
  obtain ⟨srv, resp, trm, crp, fit, rsz, ha, va, fl, sm⟩ := e
  cases resp <;> cases trm <;> cases crp <;> cases fit <;> cases rsz <;> cases ha <;>
    cases va <;> cases sm <;> cases fl <;> rfl

/-- Unsetting any subset of optional fields leaves the remaining segments a
sublist (same relative order) of the original segments. -/
theorem erases_pathSegments_sublist (e' e : Endpoint) (h : Erases e' e) :
    e'.pathSegments.Sublist e.pathSegments := by
  obtain ⟨h1, h2, h3, h4, h5, h6, h7, h8, h9⟩ := h
  unfold Endpoint.pathSegments
  refine List.Sublist.append (List.Sublist.append (List.Sublist.append (List.Sublist.append
    (List.Sublist.append (List.Sublist.append (List.Sublist.append (List.Sublist.append
    ?_ ?_) ?_) ?_) ?_) ?_) ?_) ?_) ?_
  · rcases h1 with h | h <;> simp [h]
  · rcases h2 with h | h <;> simp [h]
  · rcases h3 with h | h <;> simp [h]
  · rcases h4 with h | h <;> simp [h]
  · rcases h5 with h | h <;> simp [h]
  · rcases h6 with h | h <;> simp [h]
  · rcases h7 with h | h <;> simp [h]
  · rcases h8 with h | h <;> simp [h]
  · rcases h9 with h | h <;> simp [h]

/-- C3: the canonical path is the set options' encodings in the fixed order
(response mode, trim, crop, fit-in, resize, h-align, v-align, smart, filter
block) followed by the image identifier, joined by `/`; and unsetting any
subset of optional fields never changes the relative order of the fields that
remain set. -/
theorem canonical_path_fixed_order :
    (∀ (e : Endpoint) (img : String),
      e.buildPath img =
        String.intercalate "/" (optionalFieldEncoders.filterMap (fun f => f e) ++ [img])) ∧
    (∀ e' e : Endpoint, Erases e' e → e'.pathSegments.Sublist e.pathSegments) := by
  constructor
  · intro e img
    rw [Endpoint.buildPath, pathSegments_eq_filterMap]
  · exact erases_pathSegments_sublist

/-- An endpoint with every optional field set, used as a witness input. -/
def fullEndpoint : Endpoint :=
  ⟨⟨"http://localhost:8888", Security.noSign⟩, some ResponseMode.metadata, some Trim.topLeft,
   some (Rect.new 1 2 3 4), some FitIn.default, some ⟨300, 200⟩, some HAlignment.left,
   some VAlignment.top, [Filter.brightness 10], true⟩

/-- `fullEndpoint` with some of its optional fields unset. -/
def prunedEndpoint : Endpoint :=
  ⟨⟨"http://localhost:8888", Security.noSign⟩, none, some Trim.topLeft, none, none,
   some ⟨300, 200⟩, none, some VAlignment.top, [], true⟩

/-- Witness for C3's erasure part at a concrete endpoint pair. -/
theorem canonical_path_fixed_order_witness :
    prunedEndpoint.pathSegments.Sublist fullEndpoint.pathSegments :=
  canonical_path_fixed_order.2 prunedEndpoint fullEndpoint (by decide)

/-- C4: with no key configured (the keyless security mode), the signature
segment of the produced path is exactly the literal token `unsafe`, whatever
the options and filters. -/
theorem no_key_signature_is_literal_token (e : Endpoint) (img : String)
    (h : e.server.security = Security.noSign) :
    e.toPath img = "/unsafe/" ++ e.buildPath img := by
  show "/" ++ securityToken e.server.security (e.buildPath img) ++ "/" ++ e.buildPath img = _
  rw [h]
  rfl

/-- Witness for C4 at a concrete keyless endpoint with every option set. -/
theorem no_key_signature_is_literal_token_witness :
    fullEndpoint.toPath "img.jpg" = "/unsafe/" ++ fullEndpoint.buildPath "img.jpg" :=
  no_key_signature_is_literal_token fullEndpoint "img.jpg" rfl

/-- The first eight segment groups of the canonicalizer (everything before
the filter block). -/
def preFilterSegments (e : Endpoint) : List String :=
  (match e.response with | some resp => [resp.toStr] | none => []) ++
  (match e.trim with | some orientation => [orientation.toStr] | none => []) ++
  (match e.crop with | some crop => [rectStr crop] | none => []) ++
  (match e.fitIn with | some fitIn => [fitIn.toStr] | none => []) ++
  (match e.resize with | some resize => [pointStr resize] | none => []) ++
  (match e.hAlign with | some hAlign => [hAlign.toStr] | none => []) ++
  (match e.vAlign with | some vAlign => [vAlign.toStr] | none => []) ++
  (if e.smart then ["smart"] else [])

/-- An endpoint whose only set option is the two-element filter list of the
spec's example. -/
def filtersExampleEndpoint : Endpoint :=
  ⟨⟨"http://localhost:8888", Security.noSign⟩, none, none, none, none, none, none, none,
   [Filter.brightness 10, Filter.contrast 20], false⟩

/-- C5: an empty filter list contributes no segment at all (not an empty
`filters:` block); a non-empty list contributes exactly one segment
`filters:` followed by the filters' encodings joined by `:` in insertion
order; e.g. `[Brightness(10), Contrast(20)]` yields
`filters:brightness(10):contrast(20)`. -/
theorem filter_block_encoding :
    (∀ e : Endpoint, e.pathSegments = preFilterSegments e ++
      (if e.filters.isEmpty then []
       else ["filters:" ++ String.intercalate ":" (e.filters.map Filter.toStr)])) ∧
    (Filter.brightness 10).toStr = "brightness(10)" ∧
    (Filter.contrast 20).toStr = "contrast(20)" ∧
    filtersExampleEndpoint.buildPath "img.jpg" = "filters:brightness(10):contrast(20)/img.jpg" := by
  exact ⟨fun e => rfl, by decide, by decide, by decide⟩

/-- C6 (amended): rectangle construction stores the two input points verbatim
— no componentwise normalization happens — so a rectangle built from `(a, b)`
encodes as `a`'s encoding, `:`, `b`'s encoding, and swapping the inputs swaps
the encoded corners. -/
theorem rect_construction_stores_corners_verbatim :
    (∀ a b : Point, rectFromPoints a b = Rect.new a.x a.y b.x b.y) ∧
    (∀ a b : Point, rectStr (rectFromPoints a b) = pointStr a ++ ":" ++ pointStr b) := by
  exact ⟨fun a b => rfl, fun a b => rfl⟩

/-- C6 counterexample: for input points `a = (0, 1)`, `b = (2, 3)` the
rectangles built from `(a, b)` and `(b, a)` have different encoded forms, and
the one built from `(b, a)` violates `left ≤ right` and `top ≤ bottom` — so
construction does not normalize. -/
theorem rect_construction_not_normalized :
    rectStr (rectFromPoints (Point.new 0 1) (Point.new 2 3)) ≠
      rectStr (rectFromPoints (Point.new 2 3) (Point.new 0 1)) ∧
    ¬((rectFromPoints (Point.new 2 3) (Point.new 0 1)).left ≤
      (rectFromPoints (Point.new 2 3) (Point.new 0 1)).right) ∧
    ¬((rectFromPoints (Point.new 2 3) (Point.new 0 1)).top ≤
      (rectFromPoints (Point.new 2 3) (Point.new 0 1)).bottom) := by
  decide

/-- C7: evaluating the code at `Rect::new(0, 0, 3, 5)` (horizontal extent 3,
vertical extent 5) shows `width()` returning the vertical extent 5 and
`height()` the horizontal extent 3 — swapped relative to the claim, which the
spec itself records as a latent defect. -/
theorem width_height_swapped_at_failing_input :
    (Rect.new 0 0 3 5).width = 5 ∧ (Rect.new 0 0 3 5).height = 3 ∧
    (Rect.new 0 0 3 5).right - (Rect.new 0 0 3 5).left = 3 ∧
    (Rect.new 0 0 3 5).bottom - (Rect.new 0 0 3 5).top = 5 := by
  decide

/-- C8: filters with an optional trailing argument or trailing boolean flag
(Blur's sigma; Filling's and RoundCorners' transparency flag; Watermark's
ratios) append the argument only when present — a true flag appends the
literal token `"1"` — and contribute no field, separator or placeholder
otherwise. -/
theorem optional_trailing_args_omitted :
    (∀ r : Nat, (Filter.blur r none).args = [toString r]) ∧
    (∀ r s : Nat, (Filter.blur r (some s)).args = [toString r, toString s]) ∧
    (∀ r : Nat, (Filter.blur r none).toStr = "blur(" ++ toString r ++ ")") ∧
    (∀ c : Color, (Filter.filling c false).args = [colorStr c]) ∧
    (∀ c : Color, (Filter.filling c true).args = [colorStr c, "1"]) ∧
    (∀ (rad : Radius) (c : Color),
      (Filter.roundCorners rad c false).args = [radiusStr rad, colorStr c]) ∧
    (∀ (rad : Radius) (c : Color),
      (Filter.roundCorners rad c true).args = [radiusStr rad, colorStr c, "1"]) ∧
    (∀ (url : String) (x y : Int) (a : Nat),
      (Filter.watermark url x y a none none).args = [url, toString x, toString y, toString a]) ∧
    (∀ (url : String) (x y : Int) (a w : Nat),
      (Filter.watermark url x y a (some w) none).args =
        [url, toString x, toString y, toString a, toString w]) ∧
    (∀ (url : String) (x y : Int) (a h : Nat),
      (Filter.watermark url x y a none (some h)).args =
        [url, toString x, toString y, toString a, toString h]) ∧
    (∀ (url : String) (x y : Int) (a w h : Nat),
      (Filter.watermark url x y a (some w) (some h)).args =
        [url, toString x, toString y, toString a, toString w, toString h]) := by
  exact ⟨fun r => rfl, fun r s => rfl, fun r => rfl, fun c => rfl, fun c => rfl,
    fun rad c => rfl, fun rad c => rfl, fun url x y a => rfl, fun url x y a w => rfl,
    fun url x y a h => rfl, fun url x y a w h => rfl⟩

/-- The string `Settings::build` assembles: `"{origin}/{security}/{path}"`. -/
def Settings.assembled (s : Settings) (img : String) : String :=
  s.server.origin ++ "/" ++ securityToken s.server.security (s.buildPath img) ++ "/" ++
    s.buildPath img

/-- A server whose origin contains a space, so the assembled string is not a
parseable URI. -/
def spacedServer : Server := ⟨"http://my server.com", Security.noSign⟩

/-- A settings value on `spacedServer` with no option set. -/
def spacedSettings : Settings :=
  ⟨spacedServer, none, none, none, none, none, none, none, [], false⟩

/-- C9 (behaviour at the code): the raw-string operation always succeeds, but
`build_uri` is `Ok(build(..).unwrap().parse().unwrap())` — its result is
either a success value or a panic (modelled `none`), never an error value;
in particular, on an unparseable assembled string (e.g. an origin containing
a space) it panics instead of returning the documented error. -/
theorem build_ok_and_buildUri_never_error :
    (∀ (s : Settings) (img : String), s.build img = Except.ok (s.assembled img)) ∧
    (∀ {Uri : Type} (s : Settings) (parse : String → Option Uri) (img : String),
      s.buildUri parse img = Option.map Except.ok (parse (s.assembled img))) ∧
    (∀ {Uri : Type} (s : Settings) (parse : String → Option Uri) (img : String),
      s.buildUri parse img = none ∨ ∃ u, s.buildUri parse img = some (Except.ok u)) ∧
    @Settings.buildUri Unit spacedSettings (fun _ => none) "img.jpg" = none := by
  have hmap : ∀ {Uri : Type} (s : Settings) (parse : String → Option Uri) (img : String),
      s.buildUri parse img = Option.map Except.ok (parse (s.assembled img)) := by
    intro Uri s parse img
    show (match parse (s.assembled img) with
          | some uri => some (Except.ok uri)
          | none => none) = Option.map Except.ok (parse (s.assembled img))
    cases parse (s.assembled img) <;> rfl
  refine ⟨fun s img => rfl, hmap, ?_, rfl⟩
  intro Uri s parse img
  rw [hmap]
  cases parse (s.assembled img)
  · exact Or.inl rfl
  · exact Or.inr ⟨_, rfl⟩

/-- Wrapping addition of wrapped values equals the wrapped exact sum. -/
theorem wrap32_add_wrap32 (a b : Int) : wrap32 (wrap32 a + wrap32 b) = wrap32 (a + b) := by
  unfold wrap32
  omega

/-- Wrapping is the identity on values already in the `i32` range. -/
theorem wrap32_eq_self (n : Int) (h1 : -2147483648 ≤ n) (h2 : n < 2147483648) :
    wrap32 n = n := by
  unfold wrap32
  omega

/-- C10 (amended): `from_center(c, w, h).center() = c` for every width and
height (odd ones included: the truncated half-extent cancels out of the
corner sum) provided doubling `c`'s coordinates stays inside the `i32` range,
i.e. `-2^30 ≤ c.x, c.y < 2^30`; outside that range the wrapped corner sum
makes `center()` differ from `c`. -/
theorem fromCenter_center_eq (c : Point) (w h : Int)
    (hx1 : -1073741824 ≤ c.x) (hx2 : c.x < 1073741824)
    (hy1 : -1073741824 ≤ c.y) (hy2 : c.y < 1073741824) :
    (Rect.fromCenter c w h).center = c := by
  have key : ∀ z rz : Int, -1073741824 ≤ z → z < 1073741824 →
      Int.tdiv (wrap32 (wrap32 (z - rz) + wrap32 (z + rz))) 2 = z := by
    intro z rz u1 u2
    rw [wrap32_add_wrap32, show z - rz + (z + rz) = 2 * z by ring,
      wrap32_eq_self (2 * z) (by omega) (by omega)]
    exact Int.mul_tdiv_cancel_left z (by norm_num)
  show Point.mk
      (Int.tdiv (wrap32 (wrap32 (c.x - Int.tdiv w 2) + wrap32 (c.x + Int.tdiv w 2))) 2)
      (Int.tdiv (wrap32 (wrap32 (c.y - Int.tdiv h 2) + wrap32 (c.y + Int.tdiv h 2))) 2) = c
  rw [key c.x (Int.tdiv w 2) hx1 hx2, key c.y (Int.tdiv h 2) hy1 hy2]

/-- Witness for C10's amended theorem: odd width 3, even height 4, center
`(5, 7)` is reproduced exactly. -/
theorem fromCenter_center_eq_witness :
    (Rect.fromCenter (Point.new 5 7) 3 4).center = Point.new 5 7 :=
  fromCenter_center_eq (Point.new 5 7) 3 4 (by decide) (by decide) (by decide) (by decide)

/-- C10 counterexample: under wrapping 32-bit arithmetic the claim fails at
`c = (2^30, 0)`, `w = h = 0`: the corner sum `2^31` wraps and `center()`
returns `(-2^30, 0) ≠ c`. -/
theorem fromCenter_center_overflow :
    (Rect.fromCenter (Point.new 1073741824 0) 0 0).center = Point.new (-1073741824) 0 ∧
    (Rect.fromCenter (Point.new 1073741824 0) 0 0).center ≠ Point.new 1073741824 0 := by
  decide

end Thumbor
